import Mathlib

/-!
# Verification of the vanity-address search engine (`src/vanity/utils.py`)

Shallow embedding of the repository's core module.  Byte strings are
modelled as `List Nat` (one entry per byte), Python strings as `List Char`.
The external cryptographic primitives used by the code (`hashlib.sha256`,
`hashlib.new 'ripemd160'`, and the ecdsa public-key computation
`SigningKey.from_string(..).get_verifying_key().to_string()`) are opaque to
the repository, so the whole development is parameterised over them as
function arguments `sha256 ripemd160 ecPub : List Nat → List Nat`.
The `base58.b58encode` library call is modelled concretely by the standard
Bitcoin base-58 encoding (value in base 58, one leading `'1'` per leading
zero byte), which is the documented behaviour the code relies on.

Concurrency model: the workers spawned by `generate_matching` share a stop
flag and a result slot.  We embed a run as the sequential composition of
the workers (an admissible interleaving: a worker that observes the stop
flag exits immediately, and the first successful worker sets the flag, so
under this interleaving at most one worker writes).  External stop
requests (`stop_generation`) are modelled by an oracle `ext : Nat → Bool`
over a global step counter: `ext i = true` means a stop request was issued
at global step `i`.  The level-triggered (sticky) nature of the real flag
is captured by `extSeen`, which ORs all requests issued so far.  Each of
the two rounds gets its own oracle because the orchestrator resets the
shared flag before each round.  Wall-clock times (`time.time()` fields)
are not modelled.
-/

namespace BTCVan

/-- Alphabet of the standard Bitcoin base-58 encoding, as used by the
`base58` library that `utils.py` imports. -/
def b58Alphabet : List Char :=
  "123456789ABCDEFGHJKLMNPQRSTUVWXYZabcdefghijkmnopqrstuvwxyz".toList

/-- Digit `n` (0 ≤ n < 58) of the base-58 alphabet. -/
def b58Char (n : Nat) : Char := b58Alphabet.getD n '1'

/-- Big-endian interpretation of a byte string as a natural number. -/
def bytesToNat (bs : List Nat) : Nat := bs.foldl (fun a b => a * 256 + b) 0

/-- Base-58 digit expansion (most significant first); fuel-driven so that
it is structurally recursive (any `fuel ≥ n` computes the digits of `n`). -/
def natToB58Aux : Nat → Nat → List Char
  | 0, _ => []
  | fuel + 1, n => if n = 0 then [] else natToB58Aux fuel (n / 58) ++ [b58Char (n % 58)]

/-- Base-58 digit string of a natural number (empty for 0). -/
def natToB58 (n : Nat) : List Char := natToB58Aux n n

/-- Number of leading zero bytes of a byte string. -/
def countLeadingZeros : List Nat → Nat
  | [] => 0
  | b :: bs => if b = 0 then countLeadingZeros bs + 1 else 0

/-- Model of `base58.b58encode`: one `'1'` per leading zero byte, followed
by the base-58 digits of the big-endian value of the bytes. -/
def b58encode (bs : List Nat) : List Char :=
  List.replicate (countLeadingZeros bs) '1' ++ natToB58 (bytesToNat bs)

/-- Python `str.upper()` on our character-list strings (the code only ever
uppercases ASCII criteria and base-58 addresses). -/
def pyUpper (s : List Char) : List Char := s.map Char.toUpper

/-- Python `str.strip()`: drop whitespace from both ends. -/
def pyStrip (s : List Char) : List Char :=
  ((s.dropWhile Char.isWhitespace).reverse.dropWhile Char.isWhitespace).reverse

/-- The criteria normalisation performed by `generate_matching`:
`(prefix or "").strip().upper()`. -/
def normalizeCrit (s : List Char) : List Char := pyUpper (pyStrip s)

/-- Python truthiness of a string: non-empty. -/
def pyTruthy (s : List Char) : Bool := !s.isEmpty

section Engine

variable (sha256 ripemd160 ecPub : List Nat → List Nat)

/-- `private_key_to_address` from `utils.py`: uncompressed public key
(`b'\x04' + vk.to_string()`), SHA-256 then RIPEMD-160, version byte
`0x00`, 4-byte double-SHA-256 checksum, base-58. -/
def private_key_to_address (priv : List Nat) : List Char :=
  let public_key := 4 :: ecPub priv
  let sha := sha256 public_key
  let ripe := ripemd160 sha
  let payload := 0 :: ripe
  let checksum := (sha256 (sha256 payload)).take 4
  let final := payload ++ checksum
  b58encode final

/-- The address computation inlined in `worker_p2sh` in `utils.py`:
identical pipeline except for the `0x05` version byte. -/
def worker_p2sh_derive (priv : List Nat) : List Char :=
  let public_key := 4 :: ecPub priv
  let sha := sha256 public_key
  let ripe := ripemd160 sha
  let payload := 5 :: ripe
  let checksum := (sha256 (sha256 payload)).take 4
  b58encode (payload ++ checksum)

/-- The derivation pipeline parameterised by the version byte; the common
generalisation of `private_key_to_address` (version `0x00`) and the inline
code of `worker_p2sh` (version `0x05`). -/
def addressFromVersion (version : Nat) (priv : List Nat) : List Char :=
  let public_key := 4 :: ecPub priv
  let sha := sha256 public_key
  let ripe := ripemd160 sha
  let payload := version :: ripe
  let checksum := (sha256 (sha256 payload)).take 4
  b58encode (payload ++ checksum)

/-- Modelled from the spec: the Address Derivation pipeline of §4.2 for the
Legacy encoding, written step for step after the spec's words (marker byte
then coordinates; 256-bit hash then 160-bit hash; prepend the `0x00`
version byte; checksum = first 4 bytes of the double 256-bit hash of the
payload; base-58 encode payload ++ checksum).  Used only to compare the
code's derivation against the spec's description. -/
def deriveSpecLegacy (priv : List Nat) : List Char :=
  let pubkeyEncoding := 4 :: ecPub priv
  let pkHash := ripemd160 (sha256 pubkeyEncoding)
  let payload := 0 :: pkHash
  let checksum := (sha256 (sha256 payload)).take 4
  b58encode (payload ++ checksum)

end Engine

/-- The record a worker writes into the shared result slot on success
(the `"time"` entry, a wall-clock float, is not modelled). -/
structure FoundResult where
  address : List Char
  private_key : List Nat
  tries : Nat
  mode : List Char
deriving Repr, DecidableEq

/-- The shared mutable state visible to all workers: the stop flag and the
shared result dictionary (empty or holding one record). -/
structure Shared where
  flag : Bool
  result : Option FoundResult
deriving Repr, DecidableEq

/-- A worker's exit: the shared state it leaves behind and the global step
counter after its last iteration. -/
structure WExit where
  s : Shared
  g : Nat
deriving Repr, DecidableEq

/-- Has an external stop request been issued at any global step `≤ g`?
Models the sticky (level-triggered) shared flag within one round. -/
def extSeen (ext : Nat → Bool) (g : Nat) : Bool := (List.range (g + 1)).any ext

/-- The match test both workers perform on the core of a candidate address
(`if prefix and not core.startswith(prefix): ... continue`, then the same
for the suffix; the two `continue` branches are folded into the single
`false` outcome, which leaves the behaviour unchanged). -/
def workerMatches (pfx sfx core : List Char) : Bool :=
  if pyTruthy pfx && !(List.isPrefixOf pfx core) then false
  else if pyTruthy sfx && !(List.isSuffixOf sfx core) then false
  else true

/-- One worker's loop (`worker_legacy` / `worker_p2sh`, which differ only
in `derive` and the `mode` string).  `fuel` is `max_tries - tries`, so the
loop guard `tries < max_tries` is `fuel > 0`; each iteration first reads
the stop flag (shared flag or an external request seen so far), then draws
the key of local index `tries`, derives, and tests.  On success it writes
the result record and sets the flag. -/
def workerRun (derive : List Nat → List Char) (mode pfx sfx : List Char)
    (keys : Nat → List Nat) (ext : Nat → Bool) :
    Nat → Nat → Nat → Shared → WExit
  | 0, _, g, s => ⟨s, g⟩
  | fuel + 1, tries, g, s =>
    if s.flag || extSeen ext g then ⟨s, g⟩
    else
      let priv := keys tries
      let addr := derive priv
      let core := pyUpper (addr.drop 1)
      if workerMatches pfx sfx core then
        ⟨⟨true, some ⟨addr, priv, tries + 1, mode⟩⟩, g + 1⟩
      else
        workerRun derive mode pfx sfx keys ext fuel (tries + 1) (g + 1) s

/-- Sequential composition of the workers of one round (an admissible
interleaving of the parallel processes; see the module docstring).
`keyss i` is worker `i`'s private-key stream. -/
def runWorkers (derive : List Nat → List Char) (mode pfx sfx : List Char)
    (max_tries : Nat) (keyss : Nat → Nat → List Nat) (ext : Nat → Bool) :
    List Nat → Nat → Shared → WExit
  | [], g, s => ⟨s, g⟩
  | i :: rest, g, s =>
    let e := workerRun derive mode pfx sfx (keyss i) ext max_tries 0 g s
    runWorkers derive mode pfx sfx max_tries keyss ext rest e.g e.s

/-- The `"mode"` string recorded by `worker_legacy`. -/
def legacyMode : List Char := "Legacy (1...)".toList

/-- The `"mode"` string recorded by `worker_p2sh`. -/
def p2shMode : List Char := "P2SH (3...)".toList

/-- The message of the prefix-length rejection in `generate_matching`. -/
def prefixTooLongMsg : List Char := "Prefix too long (use shorter strings).".toList

/-- The message of the suffix-length rejection in `generate_matching`. -/
def suffixTooLongMsg : List Char := "Suffix too long (use shorter strings).".toList

/-- The message of the exhaustion outcome in `generate_matching`. -/
def noMatchMsg : List Char :=
  "No matching address found. Try a shorter/custom prefix or suffix.".toList

/-- The structured outcomes `generate_matching` can return: a result dict
(`Found`), a `{"stopped": True, ...}` dict, or an `{"error": True, ...}`
dict (covering both the validation rejections and exhaustion, which the
code distinguishes only by message). -/
inductive Outcome where
  | found : FoundResult → Outcome
  | stopped : Nat → Outcome
  | error : List Char → Nat → Outcome
deriving Repr, DecidableEq

/-- What a call of `generate_matching` leaves behind: the returned value
(`none` would be a fall-through `return None`, which the code never does)
and the final value of the process-wide `STOP_FLAG`. -/
structure GMOut where
  out : Option Outcome
  flagAfter : Bool
deriving Repr, DecidableEq

section Engine2

variable (sha256 ripemd160 ecPub : List Nat → List Nat)

/-- The Legacy round of `generate_matching`: `cpu` copies of
`worker_legacy`, started on a freshly reset flag and an empty result
dict. -/
def legacyRound (pfx sfx : List Char) (max_tries cpu : Nat)
    (keysL : Nat → Nat → List Nat) (extL : Nat → Bool) : WExit :=
  runWorkers (private_key_to_address sha256 ripemd160 ecPub) legacyMode pfx sfx
    max_tries keysL extL (List.range cpu) 0 ⟨false, none⟩

/-- The ScriptHash round of `generate_matching`: `cpu` copies of
`worker_p2sh`, started after `result.clear()` and a fresh flag reset. -/
def p2shRound (pfx sfx : List Char) (max_tries cpu : Nat)
    (keysP : Nat → Nat → List Nat) (extP : Nat → Bool) : WExit :=
  runWorkers (worker_p2sh_derive sha256 ripemd160 ecPub) p2shMode pfx sfx
    max_tries keysP extP (List.range cpu) 0 ⟨false, none⟩

/-- The tail of `generate_matching` after the Legacy round found nothing:
clear the result, reset the flag, run the ScriptHash round, then classify
(stopped / error / found) exactly in the order of the source. -/
def p2shPhase (pfx sfx : List Char) (max_tries cpu : Nat)
    (keysP : Nat → Nat → List Nat) (extP : Nat → Bool) : GMOut :=
  let e2 := p2shRound sha256 ripemd160 ecPub pfx sfx max_tries cpu keysP extP
  let finalFlag := e2.s.flag || extSeen extP e2.g
  match e2.s.result with
  | some r => ⟨some (.found r), finalFlag⟩
  | none =>
    if finalFlag then ⟨some (.stopped (max_tries * cpu * 2)), finalFlag⟩
    else ⟨some (.error noMatchMsg (max_tries * cpu * 2)), finalFlag⟩

/-- The body of `generate_matching` after validation: reset the flag,
compute the bounded worker count, run the Legacy round, return its result
if any, otherwise fall through to the ScriptHash phase. -/
def searchPhase (pfx sfx : List Char) (max_tries cpuCount : Nat)
    (keysL keysP : Nat → Nat → List Nat) (extL extP : Nat → Bool) : GMOut :=
  let cpu := max 1 (min 4 cpuCount)
  let e1 := legacyRound sha256 ripemd160 ecPub pfx sfx max_tries cpu keysL extL
  match e1.s.result with
  | some r => ⟨some (.found r), e1.s.flag || extSeen extL e1.g⟩
  | none => p2shPhase sha256 ripemd160 ecPub pfx sfx max_tries cpu keysP extP

/-- `generate_matching` from `utils.py`.  `pfx0`, `sfx0`, `max_tries` are
the call arguments; `cpuCount` is `multiprocessing.cpu_count()`; `keysL`,
`keysP` are the workers' random-key streams for the two rounds (`keys i t`
= worker `i`'s `t`-th draw of `os.urandom(32)`); `extL`, `extP` are the
external stop-request oracles of the two rounds; `initFlag` is the value
of the process-wide `STOP_FLAG` on entry (immediately overwritten by the
reset, except on the validation-rejection paths, which return before the
reset). -/
def generate_matching (pfx0 sfx0 : List Char) (max_tries cpuCount : Nat)
    (keysL keysP : Nat → Nat → List Nat) (extL extP : Nat → Bool)
    (initFlag : Bool) : GMOut :=
  let pfx := normalizeCrit pfx0
  let sfx := normalizeCrit sfx0
  if 8 < pfx.length then ⟨some (.error prefixTooLongMsg 0), initFlag⟩
  else if 8 < sfx.length then ⟨some (.error suffixTooLongMsg 0), initFlag⟩
  else searchPhase sha256 ripemd160 ecPub pfx sfx max_tries cpuCount keysL keysP extL extP

end Engine2

/-- Concrete stand-in for `sha256` used to evaluate the engine on closed
inputs (the engine is proved correct for every choice of primitives). -/
def shaStub (bs : List Nat) : List Nat := [bs.length % 256]

/-- Concrete stand-in for `ripemd160` for closed evaluations. -/
def ripeStub (bs : List Nat) : List Nat := bs

/-- Concrete stand-in for the ecdsa public-key map for closed evaluations. -/
def ecStub (bs : List Nat) : List Nat := bs

end BTCVan

/-! ## Helper lemmas -/

namespace BTCVan

/-- Base-58 encoding of a byte string with a leading zero byte starts with
the character `'1'`. -/
lemma b58encode_zero_cons (l : List Nat) :
    b58encode (0 :: l) =
      '1' :: (List.replicate (countLeadingZeros l) '1' ++ natToB58 (bytesToNat (0 :: l))) := by
  simp [b58encode, countLeadingZeros, List.replicate_succ]

end BTCVan

/-! ## Claims about the address-derivation pipeline -/

/-- C1: for every private key, `private_key_to_address` is the pure
derivation pipeline of spec §4.2 for the Legacy encoding: base-58 of
`payload ++ checksum`, where `payload` is the `0x00` version byte followed
by the RIPEMD-160 of the SHA-256 of the uncompressed public key
(`0x04` marker plus curve coordinates) and `checksum` is the first 4 bytes
of the double SHA-256 of the payload.  Being a total Lean function of its
arguments, it is deterministic and defined on every input. -/
theorem claim_C1 (sha256 ripemd160 ecPub : List Nat → List Nat) (priv : List Nat) :
    BTCVan.private_key_to_address sha256 ripemd160 ecPub priv =
      BTCVan.deriveSpecLegacy sha256 ripemd160 ecPub priv := rfl

/-- C8: the address computed inline by `worker_p2sh` and the one computed
by `private_key_to_address` are instances of one derivation pipeline
parameterised by the version byte: `0x05` and `0x00` respectively. -/
theorem claim_C8 (sha256 ripemd160 ecPub : List Nat → List Nat) (priv : List Nat) :
    BTCVan.worker_p2sh_derive sha256 ripemd160 ecPub priv =
        BTCVan.addressFromVersion sha256 ripemd160 ecPub 5 priv ∧
      BTCVan.private_key_to_address sha256 ripemd160 ecPub priv =
        BTCVan.addressFromVersion sha256 ripemd160 ecPub 0 priv :=
  ⟨rfl, rfl⟩

/-- C9: every Legacy address starts with the character `'1'` (the base-58
image of the leading `0x00` version byte), so the worker's
`addr[1:]` strips exactly the fixed version character. -/
theorem claim_C9 (sha256 ripemd160 ecPub : List Nat → List Nat) (priv : List Nat) :
    ∃ rest, BTCVan.private_key_to_address sha256 ripemd160 ecPub priv = '1' :: rest :=
  ⟨_, BTCVan.b58encode_zero_cons _⟩

namespace BTCVan

/-- `Char.ofNat` on a valid (small) codepoint round-trips through `toNat`. -/
lemma char_toNat_ofNat_valid (n : Nat) (h : n < 55296) : (Char.ofNat n).toNat = n := by
  rw [Char.ofNat, dif_pos (Or.inl h)]
  rfl

/-- Characters with distinct codepoints are distinct. -/
lemma char_ne_of_toNat_ne {a b : Char} (h : a.toNat ≠ b.toNat) : a ≠ b :=
  fun he => h (congrArg Char.toNat he)

/-- No character with codepoint ≥ 65 is whitespace. -/
lemma isWhitespace_false_of_ge (d : Char) (hd : 65 ≤ d.toNat) : d.isWhitespace = false := by
  have h1 : (' ' : Char).toNat = 32 := rfl
  have h2 : ('\t' : Char).toNat = 9 := rfl
  have h3 : ('\r' : Char).toNat = 13 := rfl
  have h4 : ('\n' : Char).toNat = 10 := rfl
  simp only [Char.isWhitespace, Bool.or_eq_false_iff, decide_eq_false_iff_not]
  refine ⟨⟨⟨?_, ?_⟩, ?_⟩, ?_⟩ <;>
    exact char_ne_of_toNat_ne (by omega)

/-- ASCII uppercasing preserves whitespace-ness. -/
lemma isWhitespace_toUpper (c : Char) : (Char.toUpper c).isWhitespace = c.isWhitespace := by
  unfold Char.toUpper
  by_cases h : c.toNat ≥ 97 ∧ c.toNat ≤ 122
  · rw [if_pos h]
    have hup : (Char.ofNat (c.toNat - 32)).toNat = c.toNat - 32 :=
      char_toNat_ofNat_valid _ (by omega)
    rw [isWhitespace_false_of_ge _ (by omega), isWhitespace_false_of_ge _ (by omega)]
  · rw [if_neg h]

/-- `strip` and `upper` commute (uppercasing does not move whitespace). -/
lemma pyStrip_pyUpper (s : List Char) : pyStrip (pyUpper s) = pyUpper (pyStrip s) := by
  have hco : (Char.isWhitespace ∘ Char.toUpper) = Char.isWhitespace :=
    funext isWhitespace_toUpper
  unfold pyStrip pyUpper
  rw [List.dropWhile_map, hco, ← List.map_reverse, List.dropWhile_map, hco, ← List.map_reverse]

/-- Criteria that agree after uppercasing normalise identically in
`generate_matching`. -/
lemma normalizeCrit_eq_of_pyUpper_eq {p q : List Char} (h : pyUpper p = pyUpper q) :
    normalizeCrit p = normalizeCrit q := by
  unfold normalizeCrit
  rw [← pyStrip_pyUpper, h, pyStrip_pyUpper]

/-- The worker's two-step match test is the conjunction of a prefix test
and a suffix test on the core (the emptiness guards are redundant because
the empty list is a prefix and a suffix of everything). -/
lemma workerMatches_eq (pfx sfx core : List Char) :
    workerMatches pfx sfx core = (List.isPrefixOf pfx core && List.isSuffixOf sfx core) := by
  cases pfx with
  | nil => cases sfx with
    | nil => simp [workerMatches, pyTruthy, List.isPrefixOf, List.isSuffixOf]
    | cons b bs =>
      cases hS : List.isSuffixOf (b :: bs) core <;>
        simp [workerMatches, pyTruthy, List.isPrefixOf, hS]
  | cons a as =>
    cases hP : List.isPrefixOf (a :: as) core
    · simp [workerMatches, pyTruthy, hP]
    · cases sfx with
      | nil => simp [workerMatches, pyTruthy, hP, List.isSuffixOf]
      | cons b bs =>
        cases hS : List.isSuffixOf (b :: bs) core <;>
          simp [workerMatches, pyTruthy, hP, hS]

end BTCVan

/-- C3: the worker's match test on a derived address, with the criteria as
normalised by `generate_matching` (trimmed, uppercased), accepts exactly
when the core (the address minus its first character), uppercased, starts
with the normalised prefix and ends with the normalised suffix (an empty
prefix or suffix is vacuously satisfied since `[]` is a prefix and a
suffix of every list); and criteria that agree up to letter case — in
particular lowercase and uppercase forms of the same criteria — make
`generate_matching` behave identically. -/
theorem claim_C3 :
    (∀ (p s addr : List Char),
        BTCVan.workerMatches (BTCVan.normalizeCrit p) (BTCVan.normalizeCrit s)
            (BTCVan.pyUpper (addr.drop 1)) =
          (List.isPrefixOf (BTCVan.normalizeCrit p) (BTCVan.pyUpper (addr.drop 1)) &&
            List.isSuffixOf (BTCVan.normalizeCrit s) (BTCVan.pyUpper (addr.drop 1)))) ∧
    (∀ (sha256 ripemd160 ecPub : List Nat → List Nat) (p q s r : List Char)
        (max_tries cpuCount : Nat) (keysL keysP : Nat → Nat → List Nat)
        (extL extP : Nat → Bool) (initFlag : Bool),
        BTCVan.pyUpper p = BTCVan.pyUpper q → BTCVan.pyUpper s = BTCVan.pyUpper r →
        BTCVan.generate_matching sha256 ripemd160 ecPub p s max_tries cpuCount
            keysL keysP extL extP initFlag =
          BTCVan.generate_matching sha256 ripemd160 ecPub q r max_tries cpuCount
            keysL keysP extL extP initFlag) := by
  constructor
  · intro p s addr
    exact BTCVan.workerMatches_eq _ _ _
  · intro _ _ _ p q s r _ _ _ _ _ _ _ h1 h2
    unfold BTCVan.generate_matching
    rw [BTCVan.normalizeCrit_eq_of_pyUpper_eq h1, BTCVan.normalizeCrit_eq_of_pyUpper_eq h2]

/-- Witness for C3: the lowercase criteria `"ab"`/`"cd"` and the uppercase
criteria `"AB"`/`"CD"` drive `generate_matching` to the same result. -/
theorem claim_C3_witness :
    BTCVan.pyUpper "ab".toList = BTCVan.pyUpper "AB".toList ∧
    BTCVan.generate_matching BTCVan.shaStub BTCVan.ripeStub BTCVan.ecStub
        "ab".toList "cd".toList 1 1 (fun _ _ => [7]) (fun _ _ => [7])
        (fun _ => false) (fun _ => false) false =
      BTCVan.generate_matching BTCVan.shaStub BTCVan.ripeStub BTCVan.ecStub
        "AB".toList "CD".toList 1 1 (fun _ _ => [7]) (fun _ _ => [7])
        (fun _ => false) (fun _ => false) false :=
  ⟨by decide,
    claim_C3.2 BTCVan.shaStub BTCVan.ripeStub BTCVan.ecStub "ab".toList "AB".toList
      "cd".toList "CD".toList 1 1 (fun _ _ => [7]) (fun _ _ => [7]) (fun _ => false)
      (fun _ => false) false (by decide) (by decide)⟩

namespace BTCVan

/-- Invariant of the worker loop: the step counter grows by at most the
remaining fuel, and the shared state is either left untouched or holds a
success record written at some local try index `t` within the budget. -/
lemma workerRun_inv (derive : List Nat → List Char) (mode pfx sfx : List Char)
    (keys : Nat → List Nat) (ext : Nat → Bool) :
    ∀ (fuel tries g : Nat) (s : Shared),
      (workerRun derive mode pfx sfx keys ext fuel tries g s).g ≤ g + fuel ∧
      ((workerRun derive mode pfx sfx keys ext fuel tries g s).s = s ∨
        ∃ t, tries ≤ t ∧ t < tries + fuel ∧
          (workerRun derive mode pfx sfx keys ext fuel tries g s).s =
            ⟨true, some ⟨derive (keys t), keys t, t + 1, mode⟩⟩) := by
  intro fuel
  induction fuel with
  | zero =>
    intro tries g s
    simp [workerRun]
  | succ n ih =>
    intro tries g s
    simp only [workerRun]
    by_cases hf : (s.flag || extSeen ext g) = true
    · simp only [if_pos hf]
      exact ⟨by omega, Or.inl (by trivial)⟩
    · simp only [if_neg hf]
      by_cases hm : workerMatches pfx sfx (pyUpper ((derive (keys tries)).drop 1)) = true
      · simp only [if_pos hm]
        exact ⟨by omega, Or.inr ⟨tries, Nat.le_refl _, by omega, rfl⟩⟩
      · simp only [if_neg hm]
        obtain ⟨hg, hres⟩ := ih (tries + 1) (g + 1) s
        refine ⟨by omega, ?_⟩
        rcases hres with h | ⟨t, h1, h2, h3⟩
        · exact Or.inl h
        · exact Or.inr ⟨t, by omega, by omega, h3⟩

/-- A worker started on a set stop flag exits at once, leaving everything
unchanged. -/
lemma workerRun_flag_entry (derive : List Nat → List Char) (mode pfx sfx : List Char)
    (keys : Nat → List Nat) (ext : Nat → Bool) (fuel tries g : Nat) (s : Shared)
    (h : s.flag = true) :
    workerRun derive mode pfx sfx keys ext fuel tries g s = ⟨s, g⟩ := by
  cases fuel with
  | zero => rfl
  | succ n => simp [workerRun, h]

end BTCVan

/-- C5: a worker performs at most `max_tries` candidate iterations (the
step counter advances once per key draw and by at most `max_tries`); if
the cancellation flag is set on entry it terminates at once reporting
nothing; and the only other way it changes the shared state is to write a
success record `{address = derive key, private_key = key, tries = t + 1,
mode}` while setting the flag, with the recorded try count between 1 and
`max_tries`. -/
theorem claim_C5 (derive : List Nat → List Char) (mode pfx sfx : List Char)
    (keys : Nat → List Nat) (ext : Nat → Bool) (max_tries g0 : Nat) (s0 : BTCVan.Shared) :
    (BTCVan.workerRun derive mode pfx sfx keys ext max_tries 0 g0 s0).g ≤ g0 + max_tries ∧
    (s0.flag = true →
      BTCVan.workerRun derive mode pfx sfx keys ext max_tries 0 g0 s0 = ⟨s0, g0⟩) ∧
    ((BTCVan.workerRun derive mode pfx sfx keys ext max_tries 0 g0 s0).s = s0 ∨
      ∃ t, t < max_tries ∧
        (BTCVan.workerRun derive mode pfx sfx keys ext max_tries 0 g0 s0).s =
          ⟨true, some ⟨derive (keys t), keys t, t + 1, mode⟩⟩ ∧
        1 ≤ t + 1 ∧ t + 1 ≤ max_tries) := by
  obtain ⟨hg, hres⟩ := BTCVan.workerRun_inv derive mode pfx sfx keys ext max_tries 0 g0 s0
  refine ⟨hg, BTCVan.workerRun_flag_entry derive mode pfx sfx keys ext max_tries 0 g0 s0, ?_⟩
  rcases hres with h | ⟨t, _, h2, h3⟩
  · exact Or.inl h
  · exact Or.inr ⟨t, by omega, h3, by omega, by omega⟩

/-- Witness for C5: a Legacy worker started on a set flag with budget 3
stays within its step budget and exits immediately, writing nothing. -/
theorem claim_C5_witness :
    (BTCVan.workerRun (BTCVan.private_key_to_address BTCVan.shaStub BTCVan.ripeStub BTCVan.ecStub)
        BTCVan.legacyMode [] [] (fun _ => [7]) (fun _ => false) 3 0 0 ⟨true, none⟩).g ≤ 0 + 3 ∧
    BTCVan.workerRun (BTCVan.private_key_to_address BTCVan.shaStub BTCVan.ripeStub BTCVan.ecStub)
        BTCVan.legacyMode [] [] (fun _ => [7]) (fun _ => false) 3 0 0 ⟨true, none⟩ =
      ⟨⟨true, none⟩, 0⟩ :=
  ⟨(claim_C5 (BTCVan.private_key_to_address BTCVan.shaStub BTCVan.ripeStub BTCVan.ecStub)
      BTCVan.legacyMode [] [] (fun _ => [7]) (fun _ => false) 3 0 ⟨true, none⟩).1,
    (claim_C5 (BTCVan.private_key_to_address BTCVan.shaStub BTCVan.ripeStub BTCVan.ecStub)
      BTCVan.legacyMode [] [] (fun _ => [7]) (fun _ => false) 3 0 ⟨true, none⟩).2.1 rfl⟩

namespace BTCVan

/-- An over-long normalised prefix is rejected before any work: the output
is the rejection error with `tries = 0`, the flag keeps its entry value,
and no oracle (keys, stop requests) is consulted. -/
lemma gm_reject_pfx (sha256 ripemd160 ecPub : List Nat → List Nat) (p s : List Char)
    (max_tries cpuCount : Nat) (keysL keysP : Nat → Nat → List Nat)
    (extL extP : Nat → Bool) (initFlag : Bool)
    (h : 8 < (normalizeCrit p).length) :
    generate_matching sha256 ripemd160 ecPub p s max_tries cpuCount keysL keysP extL extP initFlag =
      ⟨some (.error prefixTooLongMsg 0), initFlag⟩ := by
  simp [generate_matching, h]

/-- An over-long normalised suffix (with an acceptable prefix) is rejected
before any work. -/
lemma gm_reject_sfx (sha256 ripemd160 ecPub : List Nat → List Nat) (p s : List Char)
    (max_tries cpuCount : Nat) (keysL keysP : Nat → Nat → List Nat)
    (extL extP : Nat → Bool) (initFlag : Bool)
    (h1 : (normalizeCrit p).length ≤ 8) (h2 : 8 < (normalizeCrit s).length) :
    generate_matching sha256 ripemd160 ecPub p s max_tries cpuCount keysL keysP extL extP initFlag =
      ⟨some (.error suffixTooLongMsg 0), initFlag⟩ := by
  simp [generate_matching, Nat.not_lt.mpr h1, h2]

/-- With acceptable criteria, `generate_matching` proceeds to the search
phase on the normalised criteria. -/
lemma gm_search (sha256 ripemd160 ecPub : List Nat → List Nat) (p s : List Char)
    (max_tries cpuCount : Nat) (keysL keysP : Nat → Nat → List Nat)
    (extL extP : Nat → Bool) (initFlag : Bool)
    (h1 : (normalizeCrit p).length ≤ 8) (h2 : (normalizeCrit s).length ≤ 8) :
    generate_matching sha256 ripemd160 ecPub p s max_tries cpuCount keysL keysP extL extP initFlag =
      searchPhase sha256 ripemd160 ecPub (normalizeCrit p) (normalizeCrit s)
        max_tries cpuCount keysL keysP extL extP := by
  simp [generate_matching, Nat.not_lt.mpr h1, Nat.not_lt.mpr h2]

/-- If the Legacy round recorded a result, the search phase returns it as
`found` (regardless of the ScriptHash oracles, whose workers are never
launched). -/
lemma searchPhase_found (sha256 ripemd160 ecPub : List Nat → List Nat) (pfx sfx : List Char)
    (max_tries cpuCount : Nat) (keysL keysP : Nat → Nat → List Nat)
    (extL extP : Nat → Bool) (r : FoundResult)
    (h : (legacyRound sha256 ripemd160 ecPub pfx sfx max_tries
            (max 1 (min 4 cpuCount)) keysL extL).s.result = some r) :
    searchPhase sha256 ripemd160 ecPub pfx sfx max_tries cpuCount keysL keysP extL extP =
      ⟨some (.found r),
        (legacyRound sha256 ripemd160 ecPub pfx sfx max_tries
            (max 1 (min 4 cpuCount)) keysL extL).s.flag ||
          extSeen extL (legacyRound sha256 ripemd160 ecPub pfx sfx max_tries
            (max 1 (min 4 cpuCount)) keysL extL).g⟩ := by
  simp only [searchPhase, h]

/-- If the Legacy round recorded nothing, the search phase is the
ScriptHash phase, started on a cleared result slot and a freshly reset
flag, with the same full per-worker budget `max_tries`. -/
lemma searchPhase_none (sha256 ripemd160 ecPub : List Nat → List Nat) (pfx sfx : List Char)
    (max_tries cpuCount : Nat) (keysL keysP : Nat → Nat → List Nat)
    (extL extP : Nat → Bool)
    (h : (legacyRound sha256 ripemd160 ecPub pfx sfx max_tries
            (max 1 (min 4 cpuCount)) keysL extL).s.result = none) :
    searchPhase sha256 ripemd160 ecPub pfx sfx max_tries cpuCount keysL keysP extL extP =
      p2shPhase sha256 ripemd160 ecPub pfx sfx max_tries (max 1 (min 4 cpuCount)) keysP extP := by
  simp only [searchPhase, h]

end BTCVan

/-- C4: `generate_matching` validates before any work: a normalised prefix
longer than 8 yields the prefix rejection with `tries = 0`, leaving the
process-wide flag at its entry value, with an output that does not depend
on any key stream or stop oracle (no workers are launched); likewise for
the suffix; and when both normalised criteria have length at most 8
(in particular exactly 8) the call proceeds to the search phase. -/
theorem claim_C4 (sha256 ripemd160 ecPub : List Nat → List Nat) (p s : List Char)
    (max_tries cpuCount : Nat) (keysL keysP : Nat → Nat → List Nat)
    (extL extP : Nat → Bool) (initFlag : Bool) :
    (8 < (BTCVan.normalizeCrit p).length →
      BTCVan.generate_matching sha256 ripemd160 ecPub p s max_tries cpuCount
          keysL keysP extL extP initFlag =
        ⟨some (.error BTCVan.prefixTooLongMsg 0), initFlag⟩) ∧
    ((BTCVan.normalizeCrit p).length ≤ 8 → 8 < (BTCVan.normalizeCrit s).length →
      BTCVan.generate_matching sha256 ripemd160 ecPub p s max_tries cpuCount
          keysL keysP extL extP initFlag =
        ⟨some (.error BTCVan.suffixTooLongMsg 0), initFlag⟩) ∧
    ((BTCVan.normalizeCrit p).length ≤ 8 → (BTCVan.normalizeCrit s).length ≤ 8 →
      BTCVan.generate_matching sha256 ripemd160 ecPub p s max_tries cpuCount
          keysL keysP extL extP initFlag =
        BTCVan.searchPhase sha256 ripemd160 ecPub (BTCVan.normalizeCrit p)
          (BTCVan.normalizeCrit s) max_tries cpuCount keysL keysP extL extP) :=
  ⟨BTCVan.gm_reject_pfx sha256 ripemd160 ecPub p s max_tries cpuCount keysL keysP extL extP initFlag,
    BTCVan.gm_reject_sfx sha256 ripemd160 ecPub p s max_tries cpuCount keysL keysP extL extP initFlag,
    BTCVan.gm_search sha256 ripemd160 ecPub p s max_tries cpuCount keysL keysP extL extP initFlag⟩

/-- Witness for C4: a 9-`A` prefix is rejected with `tries = 0` and an
untouched flag, while an 8-`A` prefix reaches the search phase. -/
theorem claim_C4_witness :
    BTCVan.generate_matching BTCVan.shaStub BTCVan.ripeStub BTCVan.ecStub
        "AAAAAAAAA".toList [] 1 1 (fun _ _ => [7]) (fun _ _ => [7])
        (fun _ => false) (fun _ => false) false =
      ⟨some (.error BTCVan.prefixTooLongMsg 0), false⟩ ∧
    BTCVan.generate_matching BTCVan.shaStub BTCVan.ripeStub BTCVan.ecStub
        "AAAAAAAA".toList [] 1 1 (fun _ _ => [7]) (fun _ _ => [7])
        (fun _ => false) (fun _ => false) false =
      BTCVan.searchPhase BTCVan.shaStub BTCVan.ripeStub BTCVan.ecStub
        (BTCVan.normalizeCrit "AAAAAAAA".toList) (BTCVan.normalizeCrit [])
        1 1 (fun _ _ => [7]) (fun _ _ => [7]) (fun _ => false) (fun _ => false) :=
  ⟨(claim_C4 BTCVan.shaStub BTCVan.ripeStub BTCVan.ecStub "AAAAAAAAA".toList [] 1 1
      (fun _ _ => [7]) (fun _ _ => [7]) (fun _ => false) (fun _ => false) false).1 (by decide),
    (claim_C4 BTCVan.shaStub BTCVan.ripeStub BTCVan.ecStub "AAAAAAAA".toList [] 1 1
      (fun _ _ => [7]) (fun _ _ => [7]) (fun _ => false) (fun _ => false) false).2.2
      (by decide) (by decide)⟩

/-- C7: on every input and every behaviour of the key streams and stop
oracles, `generate_matching` returns a structured outcome (`found`,
`stopped`, or an `error` dict) — never `None` (which in this embedding
would be the `none` output of a fall-through return path). -/
theorem claim_C7 (sha256 ripemd160 ecPub : List Nat → List Nat) (p s : List Char)
    (max_tries cpuCount : Nat) (keysL keysP : Nat → Nat → List Nat)
    (extL extP : Nat → Bool) (initFlag : Bool) :
    (BTCVan.generate_matching sha256 ripemd160 ecPub p s max_tries cpuCount
        keysL keysP extL extP initFlag).out.isSome = true := by
  simp only [BTCVan.generate_matching, BTCVan.searchPhase, BTCVan.p2shPhase]
  repeat first
  | rfl
  | split

/-- C6: the encodings are tried in the fixed order Legacy then ScriptHash:
whenever the Legacy round records a result it is returned as `found`
(whatever the ScriptHash oracles would do — those workers are never
launched); only when the Legacy round records nothing does the call equal
the ScriptHash phase, which hands every worker the same full budget
`max_tries`; and if the ScriptHash round also records nothing and no stop
is observed the outcome is the exhaustion error. -/
theorem claim_C6 (sha256 ripemd160 ecPub : List Nat → List Nat) (p s : List Char)
    (max_tries cpuCount : Nat) (keysL keysP : Nat → Nat → List Nat)
    (extL extP : Nat → Bool) (initFlag : Bool)
    (h1 : (BTCVan.normalizeCrit p).length ≤ 8) (h2 : (BTCVan.normalizeCrit s).length ≤ 8) :
    (∀ r, (BTCVan.legacyRound sha256 ripemd160 ecPub (BTCVan.normalizeCrit p)
            (BTCVan.normalizeCrit s) max_tries (max 1 (min 4 cpuCount)) keysL extL).s.result =
          some r →
      (BTCVan.generate_matching sha256 ripemd160 ecPub p s max_tries cpuCount
          keysL keysP extL extP initFlag).out = some (.found r)) ∧
    ((BTCVan.legacyRound sha256 ripemd160 ecPub (BTCVan.normalizeCrit p)
          (BTCVan.normalizeCrit s) max_tries (max 1 (min 4 cpuCount)) keysL extL).s.result =
        none →
      BTCVan.generate_matching sha256 ripemd160 ecPub p s max_tries cpuCount
          keysL keysP extL extP initFlag =
        BTCVan.p2shPhase sha256 ripemd160 ecPub (BTCVan.normalizeCrit p)
          (BTCVan.normalizeCrit s) max_tries (max 1 (min 4 cpuCount)) keysP extP) ∧
    ((BTCVan.legacyRound sha256 ripemd160 ecPub (BTCVan.normalizeCrit p)
          (BTCVan.normalizeCrit s) max_tries (max 1 (min 4 cpuCount)) keysL extL).s.result =
        none →
      (BTCVan.p2shRound sha256 ripemd160 ecPub (BTCVan.normalizeCrit p)
          (BTCVan.normalizeCrit s) max_tries (max 1 (min 4 cpuCount)) keysP extP).s.result =
        none →
      ((BTCVan.p2shRound sha256 ripemd160 ecPub (BTCVan.normalizeCrit p)
            (BTCVan.normalizeCrit s) max_tries (max 1 (min 4 cpuCount)) keysP extP).s.flag ||
          BTCVan.extSeen extP (BTCVan.p2shRound sha256 ripemd160 ecPub (BTCVan.normalizeCrit p)
            (BTCVan.normalizeCrit s) max_tries (max 1 (min 4 cpuCount)) keysP extP).g) = false →
      (BTCVan.generate_matching sha256 ripemd160 ecPub p s max_tries cpuCount
          keysL keysP extL extP initFlag).out =
        some (.error BTCVan.noMatchMsg (max_tries * (max 1 (min 4 cpuCount)) * 2))) := by
  refine ⟨?_, ?_, ?_⟩
  · intro r hr
    rw [BTCVan.gm_search sha256 ripemd160 ecPub p s max_tries cpuCount keysL keysP extL extP
        initFlag h1 h2,
      BTCVan.searchPhase_found sha256 ripemd160 ecPub (BTCVan.normalizeCrit p)
        (BTCVan.normalizeCrit s) max_tries cpuCount keysL keysP extL extP r hr]
  · intro hn
    rw [BTCVan.gm_search sha256 ripemd160 ecPub p s max_tries cpuCount keysL keysP extL extP
        initFlag h1 h2,
      BTCVan.searchPhase_none sha256 ripemd160 ecPub (BTCVan.normalizeCrit p)
        (BTCVan.normalizeCrit s) max_tries cpuCount keysL keysP extL extP hn]
  · intro hn hn2 hflag
    rw [BTCVan.gm_search sha256 ripemd160 ecPub p s max_tries cpuCount keysL keysP extL extP
        initFlag h1 h2,
      BTCVan.searchPhase_none sha256 ripemd160 ecPub (BTCVan.normalizeCrit p)
        (BTCVan.normalizeCrit s) max_tries cpuCount keysL keysP extL extP hn]
    simp [BTCVan.p2shPhase, hn2, hflag]

/-- Witness for C6: with a criteria prefix `"9"` the Legacy round records
a hit on its first draw and `generate_matching` returns exactly that
record as `found`. -/
theorem claim_C6_witness :
    (BTCVan.legacyRound BTCVan.shaStub BTCVan.ripeStub BTCVan.ecStub
        (BTCVan.normalizeCrit "9".toList) (BTCVan.normalizeCrit []) 1 (max 1 (min 4 1))
        (fun _ _ => [7]) (fun _ => false)).s.result =
      some ⟨"19r".toList, [7], 1, BTCVan.legacyMode⟩ ∧
    (BTCVan.generate_matching BTCVan.shaStub BTCVan.ripeStub BTCVan.ecStub
        "9".toList [] 1 1 (fun _ _ => [7]) (fun _ _ => [7]) (fun _ => false)
        (fun _ => false) false).out =
      some (.found ⟨"19r".toList, [7], 1, BTCVan.legacyMode⟩) :=
  ⟨by decide,
    (claim_C6 BTCVan.shaStub BTCVan.ripeStub BTCVan.ecStub "9".toList [] 1 1
        (fun _ _ => [7]) (fun _ _ => [7]) (fun _ => false) (fun _ => false) false
        (by decide) (by decide)).1
      ⟨"19r".toList, [7], 1, BTCVan.legacyMode⟩ (by decide)⟩

/-- C10: whenever `generate_matching` returns the exhaustion error (the
`'No matching address found'` message), its `tries` field is the fixed
product `max_tries * min(4, cpu_count) * 2`, independent of how many
candidate derivations the workers actually performed. -/
theorem claim_C10 (sha256 ripemd160 ecPub : List Nat → List Nat) (p s : List Char)
    (max_tries cpuCount : Nat) (keysL keysP : Nat → Nat → List Nat)
    (extL extP : Nat → Bool) (initFlag : Bool) (t : Nat)
    (hc : 0 < cpuCount)
    (h : (BTCVan.generate_matching sha256 ripemd160 ecPub p s max_tries cpuCount
        keysL keysP extL extP initFlag).out = some (.error BTCVan.noMatchMsg t)) :
    t = max_tries * min 4 cpuCount * 2 := by
  by_cases h1 : 8 < (BTCVan.normalizeCrit p).length
  · rw [BTCVan.gm_reject_pfx sha256 ripemd160 ecPub p s max_tries cpuCount keysL keysP
        extL extP initFlag h1] at h
    injection h with h'
    injection h' with hm ht
    exact absurd hm.symm (by decide)
  · by_cases h2 : 8 < (BTCVan.normalizeCrit s).length
    · rw [BTCVan.gm_reject_sfx sha256 ripemd160 ecPub p s max_tries cpuCount keysL keysP
          extL extP initFlag (by omega) h2] at h
      injection h with h'
      injection h' with hm ht
      exact absurd hm.symm (by decide)
    · rw [BTCVan.gm_search sha256 ripemd160 ecPub p s max_tries cpuCount keysL keysP extL extP
          initFlag (by omega) (by omega)] at h
      cases hres : (BTCVan.legacyRound sha256 ripemd160 ecPub (BTCVan.normalizeCrit p)
          (BTCVan.normalizeCrit s) max_tries (max 1 (min 4 cpuCount)) keysL extL).s.result with
      | some r =>
        rw [BTCVan.searchPhase_found sha256 ripemd160 ecPub (BTCVan.normalizeCrit p)
            (BTCVan.normalizeCrit s) max_tries cpuCount keysL keysP extL extP r hres] at h
        injection h with h'
        injection h'
      | none =>
        rw [BTCVan.searchPhase_none sha256 ripemd160 ecPub (BTCVan.normalizeCrit p)
            (BTCVan.normalizeCrit s) max_tries cpuCount keysL keysP extL extP hres] at h
        cases hres2 : (BTCVan.p2shRound sha256 ripemd160 ecPub (BTCVan.normalizeCrit p)
            (BTCVan.normalizeCrit s) max_tries (max 1 (min 4 cpuCount)) keysP extP).s.result with
        | some r => simp [BTCVan.p2shPhase, hres2] at h
        | none =>
          cases hflag : ((BTCVan.p2shRound sha256 ripemd160 ecPub (BTCVan.normalizeCrit p)
              (BTCVan.normalizeCrit s) max_tries (max 1 (min 4 cpuCount)) keysP extP).s.flag ||
              BTCVan.extSeen extP (BTCVan.p2shRound sha256 ripemd160 ecPub
                (BTCVan.normalizeCrit p) (BTCVan.normalizeCrit s) max_tries
                (max 1 (min 4 cpuCount)) keysP extP).g) with
          | true => simp [BTCVan.p2shPhase, hres2, hflag] at h
          | false =>
            simp [BTCVan.p2shPhase, hres2, hflag] at h
            have hcpu : max 1 (min 4 cpuCount) = min 4 cpuCount := by omega
            rw [hcpu] at h
            omega

/-- Witness for C10: an exhausted run (impossible prefix `"Z"`, budget 1,
one worker) reports `tries = 2 = 1 * min 4 1 * 2`. -/
theorem claim_C10_witness :
    (BTCVan.generate_matching BTCVan.shaStub BTCVan.ripeStub BTCVan.ecStub
        "Z".toList [] 1 1 (fun _ _ => [7]) (fun _ _ => [7]) (fun _ => false)
        (fun _ => false) false).out = some (.error BTCVan.noMatchMsg 2) ∧
    2 = 1 * min 4 1 * 2 :=
  ⟨by decide,
    claim_C10 BTCVan.shaStub BTCVan.ripeStub BTCVan.ecStub "Z".toList [] 1 1
      (fun _ _ => [7]) (fun _ _ => [7]) (fun _ => false) (fun _ => false) false 2
      (by decide) (by decide)⟩

/-- Counterexample to C2 as stated: the process-wide flag is set on entry
(`initFlag = true`) and an external stop request is pending from global
step 0 of the Legacy round on (before any worker iteration, hence before
any worker succeeds, every Legacy worker observes it and exits), yet
`generate_matching` does not return `stopped`: it resets the flag, runs
the ScriptHash round, and returns a `found` result. -/
theorem claim_C2_counterexample :
    (BTCVan.generate_matching BTCVan.shaStub BTCVan.ripeStub BTCVan.ecStub
        [] [] 1 1 (fun _ _ => [7]) (fun _ _ => [7]) (fun _ => true)
        (fun _ => false) true).out =
      some (.found ⟨"2gZW".toList, [7], 1, BTCVan.p2shMode⟩) := by decide

/-- C2 amended: `generate_matching` resets the flag on entry and again
between the rounds, so a stop set before launch or observed during the
Legacy round never yields `stopped`: whenever the Legacy round records no
result the ScriptHash phase runs regardless (and can return `found`); a
`stopped` outcome arises only when, after the ScriptHash round, the flag
is set with no recorded result, and its `tries` field is then always the
fixed nominal budget `max_tries * cpu_count * 2`, not the completed
work. -/
theorem claim_C2_amended (sha256 ripemd160 ecPub : List Nat → List Nat) (p s : List Char)
    (max_tries cpuCount : Nat) (keysL keysP : Nat → Nat → List Nat)
    (extL extP : Nat → Bool) (initFlag : Bool) (t : Nat)
    (h1 : (BTCVan.normalizeCrit p).length ≤ 8) (h2 : (BTCVan.normalizeCrit s).length ≤ 8) :
    ((BTCVan.legacyRound sha256 ripemd160 ecPub (BTCVan.normalizeCrit p)
          (BTCVan.normalizeCrit s) max_tries (max 1 (min 4 cpuCount)) keysL extL).s.result =
        none →
      BTCVan.generate_matching sha256 ripemd160 ecPub p s max_tries cpuCount
          keysL keysP extL extP initFlag =
        BTCVan.p2shPhase sha256 ripemd160 ecPub (BTCVan.normalizeCrit p)
          (BTCVan.normalizeCrit s) max_tries (max 1 (min 4 cpuCount)) keysP extP) ∧
    ((BTCVan.generate_matching sha256 ripemd160 ecPub p s max_tries cpuCount
          keysL keysP extL extP initFlag).out = some (.stopped t) →
      t = max_tries * (max 1 (min 4 cpuCount)) * 2 ∧
      (BTCVan.p2shRound sha256 ripemd160 ecPub (BTCVan.normalizeCrit p)
          (BTCVan.normalizeCrit s) max_tries (max 1 (min 4 cpuCount)) keysP extP).s.result =
        none) := by
  constructor
  · intro hn
    rw [BTCVan.gm_search sha256 ripemd160 ecPub p s max_tries cpuCount keysL keysP extL extP
        initFlag h1 h2,
      BTCVan.searchPhase_none sha256 ripemd160 ecPub (BTCVan.normalizeCrit p)
        (BTCVan.normalizeCrit s) max_tries cpuCount keysL keysP extL extP hn]
  · intro h
    rw [BTCVan.gm_search sha256 ripemd160 ecPub p s max_tries cpuCount keysL keysP extL extP
        initFlag h1 h2] at h
    cases hres : (BTCVan.legacyRound sha256 ripemd160 ecPub (BTCVan.normalizeCrit p)
        (BTCVan.normalizeCrit s) max_tries (max 1 (min 4 cpuCount)) keysL extL).s.result with
    | some r =>
      rw [BTCVan.searchPhase_found sha256 ripemd160 ecPub (BTCVan.normalizeCrit p)
          (BTCVan.normalizeCrit s) max_tries cpuCount keysL keysP extL extP r hres] at h
      injection h with h'
      injection h'
    | none =>
      rw [BTCVan.searchPhase_none sha256 ripemd160 ecPub (BTCVan.normalizeCrit p)
          (BTCVan.normalizeCrit s) max_tries cpuCount keysL keysP extL extP hres] at h
      cases hres2 : (BTCVan.p2shRound sha256 ripemd160 ecPub (BTCVan.normalizeCrit p)
          (BTCVan.normalizeCrit s) max_tries (max 1 (min 4 cpuCount)) keysP extP).s.result with
      | some r => simp [BTCVan.p2shPhase, hres2] at h
      | none =>
        cases hflag : ((BTCVan.p2shRound sha256 ripemd160 ecPub (BTCVan.normalizeCrit p)
            (BTCVan.normalizeCrit s) max_tries (max 1 (min 4 cpuCount)) keysP extP).s.flag ||
            BTCVan.extSeen extP (BTCVan.p2shRound sha256 ripemd160 ecPub
              (BTCVan.normalizeCrit p) (BTCVan.normalizeCrit s) max_tries
              (max 1 (min 4 cpuCount)) keysP extP).g) with
        | true =>
          simp [BTCVan.p2shPhase, hres2, hflag] at h
          exact ⟨h.symm, rfl⟩
        | false => simp [BTCVan.p2shPhase, hres2, hflag] at h

/-- Witness for C2 (amended): in the counterexample scenario the Legacy
round records nothing and the call is exactly the ScriptHash phase. -/
theorem claim_C2_amended_witness :
    (BTCVan.legacyRound BTCVan.shaStub BTCVan.ripeStub BTCVan.ecStub
        (BTCVan.normalizeCrit []) (BTCVan.normalizeCrit []) 1 (max 1 (min 4 1))
        (fun _ _ => [7]) (fun _ => true)).s.result = none ∧
    BTCVan.generate_matching BTCVan.shaStub BTCVan.ripeStub BTCVan.ecStub
        [] [] 1 1 (fun _ _ => [7]) (fun _ _ => [7]) (fun _ => true)
        (fun _ => false) true =
      BTCVan.p2shPhase BTCVan.shaStub BTCVan.ripeStub BTCVan.ecStub
        (BTCVan.normalizeCrit []) (BTCVan.normalizeCrit []) 1 (max 1 (min 4 1))
        (fun _ _ => [7]) (fun _ => false) :=
  ⟨by decide,
    (claim_C2_amended BTCVan.shaStub BTCVan.ripeStub BTCVan.ecStub [] [] 1 1
        (fun _ _ => [7]) (fun _ _ => [7]) (fun _ => true) (fun _ => false) true 0
        (by decide) (by decide)).1 (by decide)⟩
